import Mathlib

/-!
Shallow embedding of the Via Labs V4 Solana message gateway
(`programs/message_gateway_v4/src`), covering the replay-protection state
machine (create_tx_pda / process_message), the canonical message hashing,
the signature validation engine, and the signer-registry operations.

Machine integers are modelled as `Nat`; the only places where the source
performs a narrowing cast (`as u8`, `as u32`) or a `u8` increment are
modelled with an explicit `% 2^w`.  Byte strings are `List Nat`.  The
external Ed25519 verification (Solana's instructions-sysvar walk) and the
keccak256 syscall are modelled as injected function parameters, as the
spec directs for external cryptographic primitives.  `require!(c, e)` is
rendered as `if c then … else .error e`; an error from a handler rolls
the whole transaction back, which the `Except` result captures (no state
is returned on failure).
-/

deriving instance DecidableEq for Except

namespace Gateway

/-- Solana public key, abstracted to its identity. -/
abbrev Pubkey := Nat

/-- Byte strings (each entry a byte value). -/
abbrev Bytes := List Nat

/-- Little-endian encoding of `n` into `w` bytes (`to_le_bytes`). -/
def leBytes (w : Nat) (n : Nat) : Bytes :=
  (List.range w).map (fun i => n / 256 ^ i % 256)

/-- Error codes of `errors.rs` (`GatewayError`), restricted to the
variants reachable from the embedded code. -/
inductive GatewayError where
  | SystemDisabled
  | InvalidDestChain
  | UnauthorizedAuthority
  | InvalidTxId
  | SenderTooLong
  | RecipientTooLong
  | OnChainDataTooLarge
  | OffChainDataTooLarge
  | InvalidSignature
  | InsufficientSignatures
  | UnauthorizedSigner
  | InvalidMessageHash
  | InsufficientVIASignatures
  | InsufficientChainSignatures
  | InsufficientProjectSignatures
  | DuplicateSigner
  | TooManySignatures
  | TooFewSignatures
  | SignerRegistryDisabled
  | InvalidThreshold
  | ThresholdTooHigh
  | Ed25519VerificationFailed
  | InvalidSignatureFormat
  deriving DecidableEq, Repr

/-- Transaction-level failure: either a failure of Anchor account
resolution (an `init` constraint hitting an existing account — the spec's
`AlreadyClaimed` — or a typed account that does not exist — the spec's
`NoSuchClaim`), or a `GatewayError` raised by a handler. -/
inductive TxError where
  | accountAlreadyInUse
  | accountNotInitialized
  | gateway (e : GatewayError)
  deriving DecidableEq, Repr

/-- Constants from `constants.rs`. -/
def MAX_SENDER_SIZE : Nat := 64
def MAX_RECIPIENT_SIZE : Nat := 64
def MAX_ON_CHAIN_DATA_SIZE : Nat := 1024
def MAX_OFF_CHAIN_DATA_SIZE : Nat := 1024
def MAX_SIGNATURES_PER_MESSAGE : Nat := 8
def MIN_SIGNATURES_REQUIRED : Nat := 2
def MAX_SIGNERS_PER_REGISTRY : Nat := 10

/-- `encode_length_prefixed` from `utils/hash.rs`: append a 4-byte
little-endian length (`data.len() as u32`) then the raw bytes. -/
def encode_length_prefixed (buffer : Bytes) (data : Bytes) : Bytes :=
  buffer ++ leBytes 4 (data.length % 2 ^ 32) ++ data

/-- The byte string assembled by `create_cross_chain_hash` before
hashing: successive `extend_from_slice` pushes onto an initially empty
`Vec`. -/
def encodedMessage (tx_id source_chain_id dest_chain_id : Nat)
    (sender recipient on_chain_data off_chain_data : Bytes) : Bytes :=
  let e0 : Bytes := []
  let e1 := e0 ++ leBytes 16 tx_id
  let e2 := e1 ++ leBytes 8 source_chain_id
  let e3 := e2 ++ leBytes 8 dest_chain_id
  let e4 := encode_length_prefixed e3 sender
  let e5 := encode_length_prefixed e4 recipient
  let e6 := encode_length_prefixed e5 on_chain_data
  encode_length_prefixed e6 off_chain_data

/-- The keccak256 syscall, an external one-way hash over byte strings,
injected as a parameter. -/
abbrev Keccak := Bytes → Bytes

/-- `create_cross_chain_hash` from `utils/hash.rs`: size checks, then the
keccak hash of the canonical encoding. -/
def create_cross_chain_hash (keccak : Keccak)
    (tx_id source_chain_id dest_chain_id : Nat)
    (sender recipient on_chain_data off_chain_data : Bytes) :
    Except GatewayError Bytes :=
  if sender.length ≤ 64 then
    if recipient.length ≤ 64 then
      if on_chain_data.length ≤ 1024 then
        if off_chain_data.length ≤ 1024 then
          .ok (keccak (encodedMessage tx_id source_chain_id dest_chain_id
            sender recipient on_chain_data off_chain_data))
        else .error .OffChainDataTooLarge
      else .error .OnChainDataTooLarge
    else .error .RecipientTooLong
  else .error .SenderTooLong

/-- `validate_message_hash` from `utils/hash.rs`: rejects the all-zero
digest. -/
def validate_message_hash (hash : Bytes) : Except GatewayError Unit :=
  if hash.all (fun b => b == 0) then .error .InvalidMessageHash else .ok ()

/-- `create_message_hash_for_signing` from `utils/hash.rs`: delegates to
`create_cross_chain_hash`. -/
def create_message_hash_for_signing (keccak : Keccak)
    (tx_id source_chain_id dest_chain_id : Nat)
    (sender recipient on_chain_data off_chain_data : Bytes) :
    Except GatewayError Bytes :=
  create_cross_chain_hash keccak tx_id source_chain_id dest_chain_id
    sender recipient on_chain_data off_chain_data

/-- Modelled from the spec: the wire format of §6 — little-endian
fixed-width integers for tx_id (16 bytes), source_chain_id (8 bytes),
dest_chain_id (8 bytes), followed by four length-prefixed (4-byte
little-endian length + raw bytes) fields in order sender, recipient,
on_chain_data, off_chain_data.  Written from the spec's words, to be
compared with `encodedMessage`, which is written from the source. -/
def specWireFormat (tx_id source_chain_id dest_chain_id : Nat)
    (sender recipient on_chain_data off_chain_data : Bytes) : Bytes :=
  leBytes 16 tx_id ++ leBytes 8 source_chain_id ++ leBytes 8 dest_chain_id
    ++ leBytes 4 (sender.length % 2 ^ 32) ++ sender
    ++ leBytes 4 (recipient.length % 2 ^ 32) ++ recipient
    ++ leBytes 4 (on_chain_data.length % 2 ^ 32) ++ on_chain_data
    ++ leBytes 4 (off_chain_data.length % 2 ^ 32) ++ off_chain_data

/-- `MessageSignature` from `state/signer_registry.rs`: a 64-byte Ed25519
signature paired with the claimed signer identity. -/
structure MessageSignature where
  signature : Bytes
  signer : Pubkey
  deriving DecidableEq, Repr

/-- The external Ed25519 verification capability (the instructions-sysvar
walk of `verify_ed25519_signature` delegating to Solana's Ed25519
program), injected as a parameter per the spec's external-interface
model. -/
abbrev Verifier := Bytes → Pubkey → Bytes → Bool

/-- `verify_ed25519_signature` from `utils/signature.rs`: format check,
hash sentinel check, then the external verifier's verdict. -/
def verify_ed25519_signature (verify : Verifier) (signature : Bytes)
    (signer : Pubkey) (message_hash : Bytes) : Except GatewayError Bool :=
  if signature.length == 64 then
    if message_hash.all (fun b => b == 0) then .error .InvalidMessageHash
    else .ok (verify signature signer message_hash)
  else .error .InvalidSignatureFormat

/-- `SignerRegistryType` from `state/signer_registry.rs`. -/
inductive SignerRegistryType where
  | VIA
  | Chain
  | Project
  deriving DecidableEq, Repr

/-- `SignerRegistry` account from `state/signer_registry.rs`. -/
structure SignerRegistry where
  registry_type : SignerRegistryType
  authority : Pubkey
  signers : List Pubkey
  required_signatures : Nat
  chain_id : Nat
  enabled : Bool
  bump : Nat
  deriving DecidableEq, Repr

/-- `SignerRegistry::is_signer`: enabled and the key is present. -/
def SignerRegistry.is_signer (r : SignerRegistry) (signer : Pubkey) : Bool :=
  r.enabled && r.signers.contains signer

/-- `SignerRegistry::validate_threshold`. -/
def SignerRegistry.validate_threshold (r : SignerRegistry) :
    Except GatewayError Unit :=
  if r.required_signatures > 0 then
    if r.required_signatures ≤ r.signers.length % 256 then .ok ()
    else .error .ThresholdTooHigh
  else .error .InvalidThreshold

/-- `ValidationResult` from `state/signer_registry.rs` (all counters are
`u8` in the source; increments are modelled mod 256). -/
structure ValidationResult where
  via_signatures : Nat
  chain_signatures : Nat
  project_signatures : Nat
  total_valid : Nat
  deriving DecidableEq, Repr

/-- `ValidationResult::new`. -/
def ValidationResult.new : ValidationResult :=
  ⟨0, 0, 0, 0⟩

/-- `ValidationResult::increment_for_signer`: bump each tier counter the
signer belongs to, and the total when it belongs to at least one. -/
def ValidationResult.increment_for_signer (v : ValidationResult)
    (is_via is_chain is_project : Bool) : ValidationResult :=
  let v1 := if is_via then
    { v with via_signatures := (v.via_signatures + 1) % 256 } else v
  let v2 := if is_chain then
    { v1 with chain_signatures := (v1.chain_signatures + 1) % 256 } else v1
  let v3 := if is_project then
    { v2 with project_signatures := (v2.project_signatures + 1) % 256 } else v2
  if is_via || is_chain || is_project then
    { v3 with total_valid := (v3.total_valid + 1) % 256 }
  else v3

/-- The `is_project_signer` binding of the signature loop: membership in
the optional project registry, false when none is supplied. -/
def is_project_signer_opt (project_registry : Option SignerRegistry)
    (signer : Pubkey) : Bool :=
  match project_registry with
  | some proj_registry => proj_registry.is_signer signer
  | none => false

/-- The signature loop of `validate_three_layer_signatures`: running
`used_signers` deduplication, per-signature cryptographic verification,
registry-membership classification and counter accumulation. -/
def validateLoop (verify : Verifier) (message_hash : Bytes)
    (via_registry chain_registry : SignerRegistry)
    (project_registry : Option SignerRegistry) :
    List MessageSignature → List Pubkey → ValidationResult →
    Except GatewayError ValidationResult
  | [], _, acc => .ok acc
  | s :: rest, used_signers, acc =>
    if used_signers.contains s.signer then .error .DuplicateSigner
    else
      match verify_ed25519_signature verify s.signature s.signer message_hash with
      | .error e => .error e
      | .ok is_valid_signature =>
        if !is_valid_signature then .error .InvalidSignature
        else
          if !(via_registry.is_signer s.signer) &&
              !(chain_registry.is_signer s.signer) &&
              !(is_project_signer_opt project_registry s.signer) then
            .error .UnauthorizedSigner
          else
            validateLoop verify message_hash via_registry chain_registry
              project_registry rest (used_signers ++ [s.signer])
              (acc.increment_for_signer (via_registry.is_signer s.signer)
                (chain_registry.is_signer s.signer)
                (is_project_signer_opt project_registry s.signer))

/-- `validate_signature_thresholds` from `utils/signature.rs`. -/
def validate_signature_thresholds (validation_result : ValidationResult)
    (via_registry chain_registry : SignerRegistry)
    (project_registry : Option SignerRegistry) : Except GatewayError Unit :=
  if validation_result.via_signatures ≥ via_registry.required_signatures then
    if validation_result.chain_signatures ≥ chain_registry.required_signatures then
      match project_registry with
      | some proj_registry =>
        if validation_result.project_signatures ≥ proj_registry.required_signatures
        then .ok ()
        else .error .InsufficientProjectSignatures
      | none => .ok ()
    else .error .InsufficientChainSignatures
  else .error .InsufficientVIASignatures

/-- `validate_three_layer_signatures` from `utils/signature.rs`: the full
three-tier authorization engine. -/
def validate_three_layer_signatures (verify : Verifier)
    (signatures : List MessageSignature) (message_hash : Bytes)
    (via_registry chain_registry : SignerRegistry)
    (project_registry : Option SignerRegistry) :
    Except GatewayError ValidationResult :=
  if !signatures.isEmpty && signatures.length ≤ MAX_SIGNATURES_PER_MESSAGE then
    if signatures.length ≥ MIN_SIGNATURES_REQUIRED then
      if message_hash.all (fun b => b == 0) then .error .InvalidMessageHash
      else
        if via_registry.enabled then
          if chain_registry.enabled then
            if (match project_registry with
                | some proj_registry => proj_registry.enabled
                | none => true) then
              match validateLoop verify message_hash via_registry
                chain_registry project_registry signatures []
                ValidationResult.new with
              | .error e => .error e
              | .ok validation_result =>
                match validate_signature_thresholds validation_result
                  via_registry chain_registry project_registry with
                | .error e => .error e
                | .ok _ => .ok validation_result
            else .error .SignerRegistryDisabled
          else .error .SignerRegistryDisabled
        else .error .SignerRegistryDisabled
    else .error .TooFewSignatures
  else .error .TooManySignatures

/-- The search loop of `validate_signatures_tx1`: stop at the first
signature the verifier accepts. -/
def findValidSignature (verify : Verifier) (message_hash : Bytes) :
    List MessageSignature → Except GatewayError Bool
  | [] => .ok false
  | s :: rest =>
    match verify_ed25519_signature verify s.signature s.signer message_hash with
    | .error e => .error e
    | .ok true => .ok true
    | .ok false => findValidSignature verify message_hash rest

/-- `validate_signatures_tx1` from `utils/signature.rs`: the lightweight
claim-phase check — batch nonempty and at most 8 signatures, nonzero
digest, and at least one cryptographically valid signature. -/
def validate_signatures_tx1 (verify : Verifier)
    (signatures : List MessageSignature) (message_hash : Bytes) :
    Except GatewayError Unit :=
  if !signatures.isEmpty && signatures.length ≤ MAX_SIGNATURES_PER_MESSAGE then
    if message_hash.all (fun b => b == 0) then .error .InvalidMessageHash
    else
      match findValidSignature verify message_hash signatures with
      | .error e => .error e
      | .ok valid_signature_found =>
        if valid_signature_found then .ok () else .error .InvalidSignature
  else .error .TooManySignatures

/-- `initialize_signer_registry` handler from
`instructions/signer_registry.rs` (the freshly created account's data,
with the bump modelled as 0). -/
def initialize_signer_registry (registry_type : SignerRegistryType)
    (authority : Pubkey) (chain_id : Nat) (initial_signers : List Pubkey)
    (required_signatures : Nat) : Except GatewayError SignerRegistry :=
  if !initial_signers.isEmpty then
    if initial_signers.length ≤ MAX_SIGNERS_PER_REGISTRY then
      if required_signatures > 0 &&
          required_signatures ≤ initial_signers.length % 256 then
        .ok { registry_type := registry_type
              authority := authority
              signers := initial_signers
              required_signatures := required_signatures
              chain_id := chain_id
              enabled := true
              bump := 0 }
      else .error .InvalidThreshold
    else .error .TooManySignatures
  else .error .InsufficientSignatures

/-- `update_signers` handler from `instructions/signer_registry.rs`. -/
def update_signers (registry : SignerRegistry) (new_signers : List Pubkey)
    (new_required_signatures : Nat) : Except GatewayError SignerRegistry :=
  if !new_signers.isEmpty then
    if new_signers.length ≤ MAX_SIGNERS_PER_REGISTRY then
      if new_required_signatures > 0 &&
          new_required_signatures ≤ new_signers.length % 256 then
        match SignerRegistry.validate_threshold
          { registry with signers := new_signers, required_signatures := new_required_signatures } with
        | .error e => .error e
        | .ok _ =>
          .ok { registry with signers := new_signers, required_signatures := new_required_signatures }
      else .error .InvalidThreshold
    else .error .TooManySignatures
  else .error .InsufficientSignatures

/-- `add_signer` handler from `instructions/signer_registry.rs`. -/
def add_signer (registry : SignerRegistry) (new_signer : Pubkey) :
    Except GatewayError SignerRegistry :=
  if registry.signers.contains new_signer then .error .DuplicateSigner
  else if registry.signers.length < MAX_SIGNERS_PER_REGISTRY then
    .ok { registry with signers := registry.signers ++ [new_signer] }
  else .error .TooManySignatures

/-- `remove_signer` handler from `instructions/signer_registry.rs`: find
the first occurrence (`position` + `Vec::remove`, i.e. `List.erase`),
fail with `UnauthorizedSigner` when absent, then require the threshold to
still be satisfiable. -/
def remove_signer (registry : SignerRegistry) (signer_to_remove : Pubkey) :
    Except GatewayError SignerRegistry :=
  if registry.signers.contains signer_to_remove then
    if registry.required_signatures ≤
        (registry.signers.erase signer_to_remove).length % 256 then
      .ok { registry with signers := registry.signers.erase signer_to_remove }
    else .error .ThresholdTooHigh
  else .error .UnauthorizedSigner

/-- `update_threshold` handler from `instructions/signer_registry.rs`. -/
def update_threshold (registry : SignerRegistry) (new_threshold : Nat) :
    Except GatewayError SignerRegistry :=
  if new_threshold > 0 then
    if new_threshold ≤ registry.signers.length % 256 then
      .ok { registry with required_signatures := new_threshold }
    else .error .ThresholdTooHigh
  else .error .InvalidThreshold

/-- `set_registry_enabled` handler from
`instructions/signer_registry.rs`. -/
def set_registry_enabled (registry : SignerRegistry) (enabled : Bool) :
    SignerRegistry :=
  { registry with enabled := enabled }

/-- The registry size/threshold invariant of the spec:
`1 ≤ required_signatures ≤ |signers|`. -/
def threshold_invariant (r : SignerRegistry) : Prop :=
  1 ≤ r.required_signatures ∧ r.required_signatures ≤ r.signers.length

instance (r : SignerRegistry) : Decidable (threshold_invariant r) := by
  unfold threshold_invariant
  infer_instance

/-- `TxIdPDA` account from `state/tx_id.rs`. -/
structure TxIdPDA where
  tx_id : Nat
  bump : Nat
  deriving DecidableEq, Repr

/-- `CounterPDA` account from `state/counter.rs`. -/
structure CounterPDA where
  source_chain_id : Nat
  highest_tx_id_seen : Nat
  bump : Nat
  deriving DecidableEq, Repr

/-- `MessageGateway` account from `state/gateway.rs`. -/
structure MessageGateway where
  authority : Pubkey
  chain_id : Nat
  system_enabled : Bool
  bump : Nat
  deriving DecidableEq, Repr

/-- Association-list update: replace the binding of `k`, or append a new
binding when `k` is absent. -/
def setA {α β : Type} [BEq α] (k : α) (v : β) :
    List (α × β) → List (α × β)
  | [] => [(k, v)]
  | p :: rest => if p.1 == k then (k, v) :: rest else p :: setA k v rest

/-- Association-list removal of every binding of `k` (account closure). -/
def eraseA {α β : Type} [BEq α] (k : α) (l : List (α × β)) :
    List (α × β) :=
  l.filter (fun p => !(p.1 == k))

/-- The persistent keyed-account state touched by the replay-protection
protocol: the gateway configuration, the `TxIdPDA` existence records
keyed by `(source_chain_id, tx_id)`, and the `CounterPDA` watermark
counters keyed by `source_chain_id`. -/
structure GatewayState where
  gateway : MessageGateway
  records : List ((Nat × Nat) × TxIdPDA)
  counters : List (Nat × CounterPDA)
  deriving DecidableEq, Repr

/-- Lookup of the existence record for a `(source_chain_id, tx_id)`
key. -/
def GatewayState.record (st : GatewayState) (k : Nat × Nat) :
    Option TxIdPDA :=
  st.records.lookup k

/-- Lookup of the watermark counter account for a source chain. -/
def GatewayState.counter (st : GatewayState) (c : Nat) : Option CounterPDA :=
  st.counters.lookup c

/-- The counter value written by a successful claim: the
`init_if_needed`-zeroed or existing `CounterPDA`, re-initialized by the
handler when its `source_chain_id` field is 0, then raised to the claimed
`tx_id` when that is higher. -/
def claimCounter (st : GatewayState) (tx_id source_chain_id : Nat) :
    CounterPDA :=
  let counter0 := (st.counter source_chain_id).getD ⟨0, 0, 0⟩
  let counter1 :=
    if counter0.source_chain_id == 0 then
      { counter0 with
        source_chain_id := source_chain_id
        highest_tx_id_seen := 0 }
    else counter0
  if tx_id > counter1.highest_tx_id_seen then
    { counter1 with highest_tx_id_seen := tx_id }
  else counter1

/-- `create_tx_pda` (TX1, claim): Anchor's `init` constraint on the
`TxIdPDA` (fails when the account already exists), `init_if_needed` on
the `CounterPDA` (zero-initialized when absent), then the handler of
`instructions/create_tx_pda.rs`. -/
def create_tx_pda (verify : Verifier) (keccak : Keccak) (st : GatewayState)
    (tx_id source_chain_id dest_chain_id : Nat)
    (sender recipient on_chain_data off_chain_data : Bytes)
    (signatures : List MessageSignature) : Except TxError GatewayState :=
  if (st.record (source_chain_id, tx_id)).isSome then
    .error .accountAlreadyInUse
  else if sender.length ≤ MAX_SENDER_SIZE then
    if recipient.length ≤ MAX_RECIPIENT_SIZE then
      if on_chain_data.length ≤ MAX_ON_CHAIN_DATA_SIZE then
        if off_chain_data.length ≤ MAX_OFF_CHAIN_DATA_SIZE then
          match create_message_hash_for_signing keccak tx_id source_chain_id
            dest_chain_id sender recipient on_chain_data off_chain_data with
          | .error e => .error (.gateway e)
          | .ok message_hash =>
            match validate_signatures_tx1 verify signatures message_hash with
            | .error e => .error (.gateway e)
            | .ok _ =>
              .ok { st with
                    records := setA (source_chain_id, tx_id)
                      { tx_id := tx_id, bump := 0 } st.records
                    counters := setA source_chain_id
                      (claimCounter st tx_id source_chain_id) st.counters }
        else .error (.gateway .OffChainDataTooLarge)
      else .error (.gateway .OnChainDataTooLarge)
    else .error (.gateway .RecipientTooLong)
  else .error (.gateway .SenderTooLong)

/-- `process_message` (TX2, consume): Anchor account resolution first
(the `TxIdPDA` must exist and deserialize), then the handler of
`instructions/process_message.rs`, and on success the `close = relayer`
constraint destroys the record. -/
def process_message (verify : Verifier) (keccak : Keccak)
    (st : GatewayState) (via_registry chain_registry : SignerRegistry)
    (project_registry : Option SignerRegistry)
    (tx_id source_chain_id dest_chain_id : Nat)
    (sender recipient on_chain_data off_chain_data : Bytes)
    (signatures : List MessageSignature) :
    Except TxError (GatewayState × ValidationResult) :=
  match st.record (source_chain_id, tx_id) with
  | none => .error .accountNotInitialized
  | some tx_id_pda =>
    if st.gateway.system_enabled then
      if dest_chain_id == st.gateway.chain_id then
        if sender.length ≤ MAX_SENDER_SIZE then
          if recipient.length ≤ MAX_RECIPIENT_SIZE then
            if on_chain_data.length ≤ MAX_ON_CHAIN_DATA_SIZE then
              if off_chain_data.length ≤ MAX_OFF_CHAIN_DATA_SIZE then
                if tx_id_pda.tx_id == tx_id then
                  match create_message_hash_for_signing keccak tx_id
                    source_chain_id dest_chain_id sender recipient
                    on_chain_data off_chain_data with
                  | .error e => .error (.gateway e)
                  | .ok message_hash =>
                    match validate_three_layer_signatures verify signatures
                      message_hash via_registry chain_registry
                      project_registry with
                    | .error e => .error (.gateway e)
                    | .ok validation_result =>
                      .ok
                        ({ st with
                           records := eraseA (source_chain_id, tx_id) st.records },
                          validation_result)
                else .error (.gateway .InvalidTxId)
              else .error (.gateway .OffChainDataTooLarge)
            else .error (.gateway .OnChainDataTooLarge)
          else .error (.gateway .RecipientTooLong)
        else .error (.gateway .SenderTooLong)
      else .error (.gateway .InvalidDestChain)
    else .error (.gateway .SystemDisabled)

/-- `set_system_enabled` handler from `instructions/admin.rs`. -/
def set_system_enabled (st : GatewayState) (enabled : Bool) : GatewayState :=
  { st with gateway := { st.gateway with system_enabled := enabled } }

/-- An externally submitted operation against the replay-protection
state: a claim (TX1), a consume (TX2, with its caller-resolved registry
accounts), or the admin enable/disable switch. -/
inductive Op where
  | claim (tx_id source_chain_id dest_chain_id : Nat)
      (sender recipient on_chain_data off_chain_data : Bytes)
      (signatures : List MessageSignature)
  | consume (via_registry chain_registry : SignerRegistry)
      (project_registry : Option SignerRegistry)
      (tx_id source_chain_id dest_chain_id : Nat)
      (sender recipient on_chain_data off_chain_data : Bytes)
      (signatures : List MessageSignature)
  | setEnabled (enabled : Bool)
  deriving Repr

/-- One transaction: the state after the operation, unchanged when the
transaction fails (Solana rolls a failed transaction back). -/
def stepOp (verify : Verifier) (keccak : Keccak) (st : GatewayState) :
    Op → GatewayState
  | .claim tx_id source_chain_id dest_chain_id sender recipient
      on_chain_data off_chain_data signatures =>
    match create_tx_pda verify keccak st tx_id source_chain_id
      dest_chain_id sender recipient on_chain_data off_chain_data
      signatures with
    | .ok st' => st'
    | .error _ => st
  | .consume via_registry chain_registry project_registry tx_id
      source_chain_id dest_chain_id sender recipient on_chain_data
      off_chain_data signatures =>
    match process_message verify keccak st via_registry chain_registry
      project_registry tx_id source_chain_id dest_chain_id sender
      recipient on_chain_data off_chain_data signatures with
    | .ok (st', _) => st'
    | .error _ => st
  | .setEnabled enabled => set_system_enabled st enabled

/-- Run a sequence of operations. -/
def runOps (verify : Verifier) (keccak : Keccak) :
    List Op → GatewayState → GatewayState
  | [], st => st
  | op :: ops, st => runOps verify keccak ops (stepOp verify keccak st op)

/-- The `(source_chain_id, tx_id)` key of an operation when it is a
consume that succeeds from state `st`, and `none` otherwise (a failed
consume rolls back and destroys nothing). -/
def consumeSuccessKey (verify : Verifier) (keccak : Keccak)
    (st : GatewayState) : Op → Option (Nat × Nat)
  | .consume via_registry chain_registry project_registry tx_id
      source_chain_id dest_chain_id sender recipient on_chain_data
      off_chain_data signatures =>
    match process_message verify keccak st via_registry chain_registry
      project_registry tx_id source_chain_id dest_chain_id sender recipient
      on_chain_data off_chain_data signatures with
    | .ok _ => some (source_chain_id, tx_id)
    | .error _ => none
  | _ => none

/-- The `(source_chain_id, tx_id)` key of an operation when it is a claim
that succeeds from state `st`, and `none` otherwise. -/
def claimSuccessKey (verify : Verifier) (keccak : Keccak)
    (st : GatewayState) : Op → Option (Nat × Nat)
  | .claim tx_id source_chain_id dest_chain_id sender recipient
      on_chain_data off_chain_data signatures =>
    match create_tx_pda verify keccak st tx_id source_chain_id
      dest_chain_id sender recipient on_chain_data off_chain_data
      signatures with
    | .ok _ => some (source_chain_id, tx_id)
    | .error _ => none
  | _ => none

/-- The keys of the successful claims along a run, in submission
order. -/
def claimTrace (verify : Verifier) (keccak : Keccak) :
    List Op → GatewayState → List (Nat × Nat)
  | [], _ => []
  | op :: ops, st =>
    (claimSuccessKey verify keccak st op).toList
      ++ claimTrace verify keccak ops (stepOp verify keccak st op)

/-- The keys of the successful consumes along a run, in submission
order. -/
def consumeTrace (verify : Verifier) (keccak : Keccak) :
    List Op → GatewayState → List (Nat × Nat)
  | [], _ => []
  | op :: ops, st =>
    (consumeSuccessKey verify keccak st op).toList
      ++ consumeTrace verify keccak ops (stepOp verify keccak st op)

/-- The observable watermark of a source chain: `highest_tx_id_seen` of
its counter account, 0 when the account does not exist. -/
def watermark (st : GatewayState) (c : Nat) : Nat :=
  ((st.counter c).map CounterPDA.highest_tx_id_seen).getD 0

/-- Well-formedness of the counter store: each `CounterPDA` is stored
under the source chain id recorded in its own `source_chain_id` field
(which the PDA seed derivation guarantees on chain). -/
def CounterKeyed (st : GatewayState) : Prop :=
  ∀ c ctr, st.counter c = some ctr → ctr.source_chain_id = c

/-! ## Concrete fixtures for witnesses and counterexamples -/

/-- A verifier accepting every signature (every submitted signature has a
matching valid Ed25519 instruction in the transaction). -/
def allVerifier : Verifier := fun _ _ _ => true

/-- A concrete stand-in for the keccak256 syscall with a nonzero
digest. -/
def oneKeccak : Keccak := fun _ => List.replicate 32 1

/-- A concrete 64-byte signature by signer 1. -/
def sig1 : MessageSignature := ⟨List.replicate 64 1, 1⟩

/-- A concrete 64-byte signature by signer 2. -/
def sig2 : MessageSignature := ⟨List.replicate 64 2, 2⟩

/-- A VIA-tier registry with signers 1 and 2, threshold 1. -/
def regVia : SignerRegistry := ⟨.VIA, 0, [1, 2], 1, 5, true, 0⟩

/-- A chain-tier registry with signer 2, threshold 1. -/
def regChain : SignerRegistry := ⟨.Chain, 0, [2], 1, 2, true, 0⟩

/-- A chain-tier registry with signers 1 and 2, threshold 1 (overlapping
with `regVia`). -/
def regChainB : SignerRegistry := ⟨.Chain, 0, [1, 2], 1, 2, true, 0⟩

/-- A fresh enabled gateway state for destination chain 5. -/
def st0 : GatewayState := ⟨⟨0, 5, true, 0⟩, [], []⟩

/-- A fresh disabled gateway state for destination chain 5. -/
def stDisabled : GatewayState := ⟨⟨0, 5, false, 0⟩, [], []⟩

/-- `st0` after a successful claim of `(source 2, tx 1)`. -/
def stClaimed : GatewayState :=
  stepOp allVerifier oneKeccak st0 (.claim 1 2 5 [] [] [] [] [sig1, sig2])

/-- `stClaimed` after a successful consume of `(source 2, tx 1)`. -/
def stConsumed : GatewayState :=
  stepOp allVerifier oneKeccak stClaimed
    (.consume regVia regChain none 1 2 5 [] [] [] [] [sig1, sig2])

/-- A fresh state after a successful claim of `(source 0, tx 5)`. -/
def stZeroA : GatewayState :=
  stepOp allVerifier oneKeccak st0 (.claim 5 0 5 [] [] [] [] [sig1, sig2])

/-- `stZeroA` after a successful claim of `(source 0, tx 2)`. -/
def stZeroB : GatewayState :=
  stepOp allVerifier oneKeccak stZeroA (.claim 2 0 5 [] [] [] [] [sig1, sig2])

/-- The three-claim sequence of the spec's watermark test (tx_ids 5, 2, 9
on source chain 2). -/
def wOps : List Op :=
  [.claim 5 2 5 [] [] [] [] [sig1, sig2],
   .claim 2 2 5 [] [] [] [] [sig1, sig2],
   .claim 9 2 5 [] [] [] [] [sig1, sig2]]

/-- A single consume of `(source 2, tx 1)` that fails (its dest chain 6
does not match the gateway's chain 5), leaving the record intact. -/
def failedConsumeOps : List Op :=
  [.consume regVia regChain none 1 2 6 [] [] [] [] [sig1, sig2]]

/-- A disabled gateway state holding a claimed record for
`(source 2, tx 1)`. -/
def stDisabledRec : GatewayState :=
  ⟨⟨0, 5, false, 0⟩, [((2, 1), ⟨1, 0⟩)], []⟩

/-! ## Association-list lemmas -/

theorem lookup_setA_self {α β : Type} [BEq α] [LawfulBEq α] (k : α) (v : β) :
    ∀ l : List (α × β), (setA k v l).lookup k = some v := by
  intro l
  induction l with
  | nil => simp [setA, List.lookup]
  | cons p rest ih =>
    by_cases h : p.1 == k
    · simp [setA, h, List.lookup]
    · have h' : (k == p.1) = false :=
        beq_eq_false_iff_ne.mpr fun hk => h (beq_iff_eq.mpr hk.symm)
      simp [setA, h, List.lookup, h', ih]

theorem lookup_setA_ne {α β : Type} [BEq α] [LawfulBEq α] {k k' : α}
    (v : β) (h : (k' == k) = false) :
    ∀ l : List (α × β), (setA k v l).lookup k' = l.lookup k' := by
  intro l
  induction l with
  | nil => simp [setA, List.lookup, h]
  | cons p rest ih =>
    by_cases hp : p.1 == k
    · have hpk : p.1 = k := beq_iff_eq.mp hp
      have h2 : (k' == p.1) = false := by rw [hpk]; exact h
      simp [setA, hp, List.lookup, h, h2]
    · simp [setA, hp, List.lookup, ih]

theorem lookup_eraseA_self {α β : Type} [BEq α] [LawfulBEq α] (k : α) :
    ∀ l : List (α × β), (eraseA k l).lookup k = none := by
  intro l
  induction l with
  | nil => simp [eraseA, List.lookup]
  | cons p rest ih =>
    by_cases hp : p.1 == k
    · simpa [eraseA, hp] using ih
    · have h2 : (k == p.1) = false :=
        beq_eq_false_iff_ne.mpr fun hk => hp (beq_iff_eq.mpr hk.symm)
      simp only [eraseA, List.filter] at ih ⊢
      simp [hp, List.lookup, h2, ih]

theorem lookup_eraseA_ne {α β : Type} [BEq α] [LawfulBEq α] {k k' : α}
    (h : (k' == k) = false) :
    ∀ l : List (α × β), (eraseA k l).lookup k' = l.lookup k' := by
  intro l
  induction l with
  | nil => simp [eraseA]
  | cons p rest ih =>
    by_cases hp : p.1 == k
    · have hpk : p.1 = k := beq_iff_eq.mp hp
      have h2 : (k' == p.1) = false := by rw [hpk]; exact h
      simp only [eraseA, List.filter] at ih ⊢
      simp [hp, List.lookup, h2, ih]
    · simp only [eraseA, List.filter] at ih ⊢
      cases hk : k' == p.1 <;> simp [hp, List.lookup, hk, ih]

/-! ## Characterization and invariant lemmas -/

theorem create_tx_pda_ok_elim
    {v : Verifier} {kk : Keccak} {st : GatewayState}
    {tx_id source_chain_id dest_chain_id : Nat}
    {sender recipient on_chain_data off_chain_data : Bytes}
    {signatures : List MessageSignature} {st' : GatewayState}
    (h : create_tx_pda v kk st tx_id source_chain_id dest_chain_id sender
      recipient on_chain_data off_chain_data signatures = .ok st') :
    st.record (source_chain_id, tx_id) = none ∧
    st' = { st with
            records := setA (source_chain_id, tx_id) ⟨tx_id, 0⟩ st.records
            counters := setA source_chain_id
              (claimCounter st tx_id source_chain_id) st.counters } := by
  unfold create_tx_pda at h
  repeat' split at h
  all_goals simp_all [Option.not_isSome_iff_eq_none]


theorem create_tx_pda_of_present
    {st : GatewayState} {tx_id source_chain_id : Nat}
    (v : Verifier) (kk : Keccak) (dest_chain_id : Nat)
    (sender recipient on_chain_data off_chain_data : Bytes)
    (signatures : List MessageSignature)
    (h : (st.record (source_chain_id, tx_id)).isSome) :
    create_tx_pda v kk st tx_id source_chain_id dest_chain_id sender
      recipient on_chain_data off_chain_data signatures
      = .error .accountAlreadyInUse := by
  simp [create_tx_pda, h]

theorem process_message_ok_elim
    {v : Verifier} {kk : Keccak} {st : GatewayState}
    {via_registry chain_registry : SignerRegistry}
    {project_registry : Option SignerRegistry}
    {tx_id source_chain_id dest_chain_id : Nat}
    {sender recipient on_chain_data off_chain_data : Bytes}
    {signatures : List MessageSignature}
    {st' : GatewayState} {r : ValidationResult}
    (h : process_message v kk st via_registry chain_registry
      project_registry tx_id source_chain_id dest_chain_id sender recipient
      on_chain_data off_chain_data signatures = .ok (st', r)) :
    (st.record (source_chain_id, tx_id)).isSome ∧
    st' = { st with records := eraseA (source_chain_id, tx_id) st.records } := by
  unfold process_message at h
  repeat' split at h
  all_goals simp_all

theorem process_message_of_absent
    {st : GatewayState} {tx_id source_chain_id : Nat}
    (v : Verifier) (kk : Keccak)
    (via_registry chain_registry : SignerRegistry)
    (project_registry : Option SignerRegistry) (dest_chain_id : Nat)
    (sender recipient on_chain_data off_chain_data : Bytes)
    (signatures : List MessageSignature)
    (h : st.record (source_chain_id, tx_id) = none) :
    process_message v kk st via_registry chain_registry project_registry
      tx_id source_chain_id dest_chain_id sender recipient on_chain_data
      off_chain_data signatures = .error .accountNotInitialized := by
  simp [process_message, h]


theorem claimCounter_source {st : GatewayState} {src : Nat} (tx : Nat)
    (hK : CounterKeyed st) :
    (claimCounter st tx src).source_chain_id = src := by
  unfold claimCounter
  cases hc : st.counter src with
  | none => simp only [hc, Option.getD]; split <;> split <;> simp_all
  | some ctr =>
    have hs := hK src ctr hc
    simp only [hc, Option.getD]
    split <;> split <;> simp_all

theorem claimCounter_highest {st : GatewayState} {src : Nat} (tx : Nat)
    (hK : CounterKeyed st) (hsrc : src ≠ 0) :
    (claimCounter st tx src).highest_tx_id_seen = max (watermark st src) tx := by
  unfold claimCounter
  cases hc : st.counter src with
  | none =>
    have hw0 : watermark st src = 0 := by simp [watermark, hc]
    rw [hw0]
    simp only [hc, Option.getD]
    split <;> split <;> simp_all
  | some ctr =>
    have hs := hK src ctr hc
    have hw : watermark st src = ctr.highest_tx_id_seen := by
      simp [watermark, hc]
    have hz : (ctr.source_chain_id == 0) = false := by
      rw [hs]; exact beq_eq_false_iff_ne.mpr hsrc
    rw [hw]
    simp only [hc, Option.getD, hz, Bool.false_eq_true, if_false]
    split <;> simp <;> omega


theorem stepOp_counterKeyed {v : Verifier} {kk : Keccak} {st : GatewayState}
    {op : Op} (hK : CounterKeyed st) : CounterKeyed (stepOp v kk st op) := by
  cases op with
  | claim tx_id source_chain_id dest_chain_id sender recipient ocd ofd sigs =>
    simp only [stepOp]
    cases hc : create_tx_pda v kk st tx_id source_chain_id dest_chain_id
      sender recipient ocd ofd sigs with
    | error e => exact hK
    | ok st' =>
      obtain ⟨-, rfl⟩ := create_tx_pda_ok_elim hc
      intro c ctr hl
      by_cases hcs : c = source_chain_id
      · subst hcs
        have : (setA c (claimCounter st tx_id c) st.counters).lookup c
            = some (claimCounter st tx_id c) := lookup_setA_self c _ _
        rw [show (({ st with
              records := setA (c, tx_id) ⟨tx_id, 0⟩ st.records
              counters := setA c (claimCounter st tx_id c) st.counters } :
            GatewayState).counter c) = (setA c (claimCounter st tx_id c)
              st.counters).lookup c from rfl, this] at hl
        cases hl
        exact claimCounter_source tx_id hK
      · have hb : (c == source_chain_id) = false := beq_eq_false_iff_ne.mpr hcs
        have : (setA source_chain_id (claimCounter st tx_id source_chain_id)
            st.counters).lookup c = st.counters.lookup c :=
          lookup_setA_ne _ hb _
        exact hK c ctr (by rw [show (({ st with
          records := setA (source_chain_id, tx_id) ⟨tx_id, 0⟩ st.records
          counters := setA source_chain_id
            (claimCounter st tx_id source_chain_id) st.counters } :
          GatewayState).counter c) = (setA source_chain_id
            (claimCounter st tx_id source_chain_id) st.counters).lookup c
          from rfl, this] at hl; exact hl)
  | consume via_r chain_r proj_r tx_id source_chain_id dest_chain_id
      sender recipient ocd ofd sigs =>
    simp only [stepOp]
    cases hc : process_message v kk st via_r chain_r proj_r tx_id
      source_chain_id dest_chain_id sender recipient ocd ofd sigs with
    | error e => exact hK
    | ok p =>
      obtain ⟨st', r⟩ := p
      obtain ⟨-, rfl⟩ := process_message_ok_elim hc
      exact hK
  | setEnabled b => exact hK


theorem stepOp_watermark {v : Verifier} {kk : Keccak} {st : GatewayState}
    {op : Op} {c : Nat} (hK : CounterKeyed st) (hc : c ≠ 0) :
    watermark (stepOp v kk st op) c =
      match claimSuccessKey v kk st op with
      | some (src, tx) =>
        if src = c then max (watermark st c) tx else watermark st c
      | none => watermark st c := by
  cases op with
  | claim tx_id source_chain_id dest_chain_id sender recipient ocd ofd sigs =>
    simp only [stepOp, claimSuccessKey]
    cases hcr : create_tx_pda v kk st tx_id source_chain_id dest_chain_id
      sender recipient ocd ofd sigs with
    | error e => rfl
    | ok st' =>
      obtain ⟨-, rfl⟩ := create_tx_pda_ok_elim hcr
      by_cases hsc : source_chain_id = c
      · subst hsc
        simp only [if_pos rfl]
        have hl : (setA source_chain_id
            (claimCounter st tx_id source_chain_id) st.counters).lookup
            source_chain_id = some (claimCounter st tx_id source_chain_id) :=
          lookup_setA_self _ _ _
        show (((setA source_chain_id (claimCounter st tx_id source_chain_id)
            st.counters).lookup source_chain_id).map
            CounterPDA.highest_tx_id_seen).getD 0 = _
        rw [hl]
        simpa using claimCounter_highest tx_id hK hc
      · simp only [if_neg hsc]
        have hb : (c == source_chain_id) = false := beq_eq_false_iff_ne.mpr
          fun h => hsc h.symm
        show (((setA source_chain_id (claimCounter st tx_id source_chain_id)
            st.counters).lookup c).map CounterPDA.highest_tx_id_seen).getD 0 = _
        rw [lookup_setA_ne _ hb]
        rfl
  | consume via_r chain_r proj_r tx_id source_chain_id dest_chain_id
      sender recipient ocd ofd sigs =>
    simp only [stepOp, claimSuccessKey]
    cases hcr : process_message v kk st via_r chain_r proj_r tx_id
      source_chain_id dest_chain_id sender recipient ocd ofd sigs with
    | error e => rfl
    | ok p =>
      obtain ⟨st', r⟩ := p
      obtain ⟨-, rfl⟩ := process_message_ok_elim hcr
      rfl
  | setEnabled b => rfl


theorem runOps_counterKeyed {v : Verifier} {kk : Keccak} :
    ∀ (ops : List Op) (st : GatewayState), CounterKeyed st →
      CounterKeyed (runOps v kk ops st) := by
  intro ops
  induction ops with
  | nil => intro st hK; exact hK
  | cons op ops ih => intro st hK; exact ih _ (stepOp_counterKeyed hK)

theorem le_foldl_max (f : Nat × Nat → Nat) :
    ∀ (l : List (Nat × Nat)) (m n : Nat), m ≤ n →
      m ≤ l.foldl (fun a p => max a (f p)) n := by
  intro l
  induction l with
  | nil => intro m n h; exact h
  | cons p rest ih =>
    intro m n h
    exact ih m _ (le_trans h (Nat.le_max_left _ _))

theorem watermark_runOps {v : Verifier} {kk : Keccak} {src : Nat} :
    ∀ (ops : List Op) (st : GatewayState), CounterKeyed st → src ≠ 0 →
      watermark (runOps v kk ops st) src =
        ((claimTrace v kk ops st).filter (fun p => p.1 == src)).foldl
          (fun m p => max m p.2) (watermark st src) := by
  intro ops
  induction ops with
  | nil => intro st hK hs; rfl
  | cons op ops ih =>
    intro st hK hs
    have hK' : CounterKeyed (stepOp v kk st op) := stepOp_counterKeyed hK
    have hstep := @stepOp_watermark v kk st op src hK hs
    simp only [runOps, claimTrace]
    rw [ih _ hK' hs]
    cases hck : claimSuccessKey v kk st op with
    | none =>
      rw [hck] at hstep
      simp only [hck, Option.toList, List.nil_append]
      rw [hstep]
    | some p =>
      obtain ⟨src', tx⟩ := p
      rw [hck] at hstep
      by_cases hsc : src' = src
      · subst hsc
        simp only [if_pos rfl] at hstep
        have hfil : ((src', tx) :: claimTrace v kk ops (stepOp v kk st op)).filter
            (fun p => p.1 == src') = (src', tx) :: (claimTrace v kk ops
              (stepOp v kk st op)).filter (fun p => p.1 == src') := by
          simp [List.filter]
        simp only [hck, Option.toList, List.cons_append, List.nil_append, hfil,
          List.foldl_cons]
        rw [hstep]
        simp
      · have hb : (src' == src) = false := beq_eq_false_iff_ne.mpr hsc
        simp only [if_neg hsc] at hstep
        simp only [hck, Option.toList, List.cons_append, List.nil_append,
          List.filter, hb]
        rw [hstep]
        simp


theorem stepOp_record_isSome {v : Verifier} {kk : Keccak} {st : GatewayState}
    {k : Nat × Nat} {op : Op} (h : (st.record k).isSome)
    (hop : consumeSuccessKey v kk st op ≠ some k) :
    ((stepOp v kk st op).record k).isSome := by
  cases op with
  | claim tx_id source_chain_id dest_chain_id sender recipient ocd ofd sigs =>
    simp only [stepOp]
    cases hc : create_tx_pda v kk st tx_id source_chain_id dest_chain_id
      sender recipient ocd ofd sigs with
    | error e => exact h
    | ok st' =>
      obtain ⟨hnone, rfl⟩ := create_tx_pda_ok_elim hc
      have hk : (k == (source_chain_id, tx_id)) = false := by
        refine beq_eq_false_iff_ne.mpr fun he => ?_
        rw [he, hnone] at h
        simp at h
      show ((setA (source_chain_id, tx_id) ⟨tx_id, 0⟩ st.records).lookup k).isSome
      rw [lookup_setA_ne _ hk]
      exact h
  | consume via_r chain_r proj_r tx_id source_chain_id dest_chain_id
      sender recipient ocd ofd sigs =>
    simp only [stepOp]
    cases hc : process_message v kk st via_r chain_r proj_r tx_id
      source_chain_id dest_chain_id sender recipient ocd ofd sigs with
    | error e => exact h
    | ok p =>
      obtain ⟨st', r⟩ := p
      have hk : (k == (source_chain_id, tx_id)) = false := by
        refine beq_eq_false_iff_ne.mpr fun he => ?_
        apply hop
        simp only [consumeSuccessKey, hc]
        rw [he]
      obtain ⟨-, rfl⟩ := process_message_ok_elim hc
      show ((eraseA (source_chain_id, tx_id) st.records).lookup k).isSome
      rw [lookup_eraseA_ne hk]
      exact h
  | setEnabled b => exact h

theorem runOps_record_isSome {v : Verifier} {kk : Keccak} {k : Nat × Nat} :
    ∀ (ops : List Op) (st : GatewayState), (st.record k).isSome →
      k ∉ consumeTrace v kk ops st →
      ((runOps v kk ops st).record k).isSome := by
  intro ops
  induction ops with
  | nil => intro st h _; exact h
  | cons op ops ih =>
    intro st h hops
    simp only [consumeTrace, List.mem_append] at hops
    push_neg at hops
    obtain ⟨h1, h2⟩ := hops
    refine ih _ (stepOp_record_isSome h ?_) h2
    intro hconsume
    apply h1
    rw [hconsume]
    simp

/-! ## Claim theorems: replay protection and watermark -/

/-- Claim C1 (amended): once a claim for `(source_chain_id, tx_id)` has
succeeded, every later claim for the same key fails with the
account-already-in-use error (the spec's `AlreadyClaimed`) as long as no
successful consume of that same key intervenes — failed consumes of the
key, and consumes of different tx_ids on the same source chain, do not
re-enable claiming. -/
theorem claim_unique_per_key_until_consumed
    (v : Verifier) (kk : Keccak) (st st1 : GatewayState)
    (tx_id source_chain_id dest_chain_id : Nat)
    (sender recipient on_chain_data off_chain_data : Bytes)
    (signatures : List MessageSignature) (ops : List Op)
    (dest' : Nat) (sender' recipient' ocd' ofd' : Bytes)
    (sigs' : List MessageSignature)
    (h : create_tx_pda v kk st tx_id source_chain_id dest_chain_id sender
      recipient on_chain_data off_chain_data signatures = .ok st1)
    (hops : (source_chain_id, tx_id) ∉ consumeTrace v kk ops st1) :
    create_tx_pda v kk (runOps v kk ops st1) tx_id source_chain_id dest'
      sender' recipient' ocd' ofd' sigs' = .error .accountAlreadyInUse := by
  obtain ⟨-, rfl⟩ := create_tx_pda_ok_elim h
  apply create_tx_pda_of_present
  apply runOps_record_isSome _ _ ?_ hops
  show ((setA (source_chain_id, tx_id) ⟨tx_id, 0⟩ st.records).lookup
    (source_chain_id, tx_id)).isSome
  rw [lookup_setA_self]
  rfl

theorem claim_unique_witness :
    create_tx_pda allVerifier oneKeccak
      (runOps allVerifier oneKeccak failedConsumeOps stClaimed)
      1 2 5 [] [] [] [] [sig1, sig2] = .error .accountAlreadyInUse :=
  claim_unique_per_key_until_consumed allVerifier oneKeccak st0 stClaimed
    1 2 5 [] [] [] [] [sig1, sig2] failedConsumeOps 5 [] [] [] []
    [sig1, sig2] (by decide) (by decide)

/-- Claim C1 counterexample: claim of `(source 2, tx 1)`, then consume of
the same key, then a second claim of the very same key — the second claim
succeeds, so a later claim does not always fail with `AlreadyClaimed` and
more than one claim can succeed for one key over a sequence of
operations. -/
theorem claim_can_repeat_after_consume :
    create_tx_pda allVerifier oneKeccak st0 1 2 5 [] [] [] [] [sig1, sig2]
      = .ok stClaimed ∧
    (process_message allVerifier oneKeccak stClaimed regVia regChain none
      1 2 5 [] [] [] [] [sig1, sig2]).isOk = true ∧
    create_tx_pda allVerifier oneKeccak stConsumed 1 2 5 [] [] [] []
      [sig1, sig2] ≠ .error .accountAlreadyInUse ∧
    (create_tx_pda allVerifier oneKeccak stConsumed 1 2 5 [] [] [] []
      [sig1, sig2]).isOk = true := by decide

/-- Claim C2: a successful consume destroys the existence record and a
repeat of the very same consume fails with the account-not-initialized
error (the spec's `NoSuchClaim`); a failed consume (signature
authorization included) leaves the persistent state entirely
unchanged. -/
theorem consume_destroys_iff_success
    (v : Verifier) (kk : Keccak) (st : GatewayState)
    (via_registry chain_registry : SignerRegistry)
    (project_registry : Option SignerRegistry)
    (tx_id source_chain_id dest_chain_id : Nat)
    (sender recipient on_chain_data off_chain_data : Bytes)
    (signatures : List MessageSignature) :
    (∀ st' r,
      process_message v kk st via_registry chain_registry project_registry
        tx_id source_chain_id dest_chain_id sender recipient on_chain_data
        off_chain_data signatures = .ok (st', r) →
      st'.record (source_chain_id, tx_id) = none ∧
      process_message v kk st' via_registry chain_registry project_registry
        tx_id source_chain_id dest_chain_id sender recipient on_chain_data
        off_chain_data signatures = .error .accountNotInitialized) ∧
    (∀ e,
      process_message v kk st via_registry chain_registry project_registry
        tx_id source_chain_id dest_chain_id sender recipient on_chain_data
        off_chain_data signatures = .error e →
      stepOp v kk st (.consume via_registry chain_registry project_registry
        tx_id source_chain_id dest_chain_id sender recipient on_chain_data
        off_chain_data signatures) = st) := by
  constructor
  · intro st' r h
    obtain ⟨-, rfl⟩ := process_message_ok_elim h
    have hrec : ({ st with
        records := eraseA (source_chain_id, tx_id) st.records } :
        GatewayState).record (source_chain_id, tx_id) = none := by
      show (eraseA (source_chain_id, tx_id) st.records).lookup
        (source_chain_id, tx_id) = none
      exact lookup_eraseA_self _ _
    exact ⟨hrec, process_message_of_absent _ _ _ _ _ _ _ _ _ _ _ hrec⟩
  · intro e h
    simp only [stepOp, h]

theorem consume_destroys_witness :
    stConsumed.record (2, 1) = none ∧
    process_message allVerifier oneKeccak stConsumed regVia regChain none
      1 2 5 [] [] [] [] [sig1, sig2] = .error .accountNotInitialized :=
  (consume_destroys_iff_success allVerifier oneKeccak stClaimed regVia
    regChain none 1 2 5 [] [] [] [] [sig1, sig2]).1 stConsumed
    ⟨2, 1, 0, 2⟩ (by decide)

/-- Claim C3 (amended): for every source chain with a nonzero id, over
any operation sequence the watermark is the running maximum of the
tx_ids of the successful claims on that chain (hence monotonically
non-decreasing and order-independent); the source-chain id 0 is excluded
because the handler's `counter.source_chain_id == 0` freshness test
re-initializes an existing chain-0 counter. -/
theorem watermark_running_max
    (v : Verifier) (kk : Keccak) (ops : List Op) (st : GatewayState)
    (src : Nat) (hK : CounterKeyed st) (hsrc : src ≠ 0) :
    watermark (runOps v kk ops st) src =
      ((claimTrace v kk ops st).filter (fun p => p.1 == src)).foldl
        (fun m p => max m p.2) (watermark st src) ∧
    watermark st src ≤ watermark (runOps v kk ops st) src := by
  have h := @watermark_runOps v kk src ops st hK hsrc
  refine ⟨h, ?_⟩
  rw [h]
  exact le_foldl_max Prod.snd _ _ _ le_rfl

theorem watermark_running_max_witness :
    watermark (runOps allVerifier oneKeccak wOps st0) 2 =
      ((claimTrace allVerifier oneKeccak wOps st0).filter
        (fun p => p.1 == 2)).foldl (fun m p => max m p.2)
        (watermark st0 2) ∧
    watermark st0 2 ≤ watermark (runOps allVerifier oneKeccak wOps st0) 2 :=
  watermark_running_max allVerifier oneKeccak wOps st0 2
    (by intro c ctr h; simp [GatewayState.counter, List.lookup] at h)
    (by decide)

/-- Claim C3 counterexample: on source chain 0 two successful claims with
tx_ids 5 then 2 leave the watermark at 2 — the watermark decreases and is
not the maximum of the claimed tx_ids. -/
theorem watermark_drops_on_chain_zero :
    (create_tx_pda allVerifier oneKeccak st0 5 0 5 [] [] [] []
      [sig1, sig2]).isOk = true ∧
    watermark stZeroA 0 = 5 ∧
    (create_tx_pda allVerifier oneKeccak stZeroA 2 0 5 [] [] [] []
      [sig1, sig2]).isOk = true ∧
    watermark stZeroB 0 = 2 ∧
    watermark stZeroB 0 < watermark stZeroA 0 := by decide

/-! ## Claim theorems: signature engine bounds and hashing -/

/-- Claim C4 (amended): the claim-phase check `validate_signatures_tx1`
enforces only the nonempty and at-most-8 bounds (both violations yield
`TooManySignatures`); a batch of a single cryptographically valid
signature is accepted, so the 2-signature minimum of the full engine is
not enforced in the claim phase. -/
theorem tx1_signature_bounds :
    (∀ (v : Verifier) (h : Bytes),
      validate_signatures_tx1 v [] h = .error .TooManySignatures) ∧
    (∀ (v : Verifier) (sigs : List MessageSignature) (h : Bytes),
      sigs.length > MAX_SIGNATURES_PER_MESSAGE →
      validate_signatures_tx1 v sigs h = .error .TooManySignatures) ∧
    (∀ (v : Verifier) (s : MessageSignature) (h : Bytes),
      s.signature.length = 64 →
      (h.all (fun b => b == 0)) = false →
      v s.signature s.signer h = true →
      validate_signatures_tx1 v [s] h = .ok ()) := by
  refine ⟨?_, ?_, ?_⟩
  · intro v h
    simp [validate_signatures_tx1]
  · intro v sigs h hlen
    have : (sigs.length ≤ MAX_SIGNATURES_PER_MESSAGE) = False := by
      simp; omega
    simp [validate_signatures_tx1, this]
  · intro v s h hs hz hv
    simp [validate_signatures_tx1, findValidSignature,
      verify_ed25519_signature, hs, hz, hv, MAX_SIGNATURES_PER_MESSAGE]

theorem tx1_signature_bounds_witness :
    validate_signatures_tx1 allVerifier [] (List.replicate 32 1)
      = .error .TooManySignatures ∧
    validate_signatures_tx1 allVerifier (List.replicate 9 sig1)
      (List.replicate 32 1) = .error .TooManySignatures ∧
    validate_signatures_tx1 allVerifier [sig1] (List.replicate 32 1)
      = .ok () :=
  ⟨tx1_signature_bounds.1 allVerifier (List.replicate 32 1),
   tx1_signature_bounds.2.1 allVerifier (List.replicate 9 sig1)
     (List.replicate 32 1) (by decide),
   tx1_signature_bounds.2.2 allVerifier sig1 (List.replicate 32 1)
     (by decide) (by decide) (by decide)⟩

/-- Claim C4 counterexample: a batch with a single valid signature is
accepted by the claim-phase check, so batches with fewer than 2
signatures are not rejected. -/
theorem tx1_accepts_single_signature :
    validate_signatures_tx1 allVerifier [sig1] (List.replicate 32 1)
      = .ok () := by decide

/-- Claim C5 (amended): the full engine rejects a batch of exactly one
signature with `TooFewSignatures` and a batch of more than 8 with
`TooManySignatures`, before any cryptographic or registry processing —
but the empty batch fails the nonempty conjunct of the first bound and
is reported as `TooManySignatures`, not `TooFewSignatures`. -/
theorem three_layer_size_bounds
    (v : Verifier) (h : Bytes) (via_r chain_r : SignerRegistry)
    (proj_r : Option SignerRegistry) (sigs : List MessageSignature) :
    (sigs = [] →
      validate_three_layer_signatures v sigs h via_r chain_r proj_r
        = .error .TooManySignatures) ∧
    (sigs.length = 1 →
      validate_three_layer_signatures v sigs h via_r chain_r proj_r
        = .error .TooFewSignatures) ∧
    (sigs.length > MAX_SIGNATURES_PER_MESSAGE →
      validate_three_layer_signatures v sigs h via_r chain_r proj_r
        = .error .TooManySignatures) := by
  refine ⟨?_, ?_, ?_⟩
  · intro he
    subst he
    simp [validate_three_layer_signatures]
  · intro h1
    have hne : sigs.isEmpty = false := by
      cases sigs <;> simp_all
    simp [validate_three_layer_signatures, hne, h1, MIN_SIGNATURES_REQUIRED,
      MAX_SIGNATURES_PER_MESSAGE]
  · intro hlen
    have : (sigs.length ≤ MAX_SIGNATURES_PER_MESSAGE) = False := by
      simp; omega
    simp [validate_three_layer_signatures, this]

theorem three_layer_size_bounds_witness :
    validate_three_layer_signatures allVerifier [] (List.replicate 32 1)
      regVia regChain none = .error .TooManySignatures ∧
    validate_three_layer_signatures allVerifier [sig1]
      (List.replicate 32 1) regVia regChain none
      = .error .TooFewSignatures ∧
    validate_three_layer_signatures allVerifier (List.replicate 9 sig1)
      (List.replicate 32 1) regVia regChain none
      = .error .TooManySignatures := by
  have h := three_layer_size_bounds allVerifier (List.replicate 32 1)
    regVia regChain none
  exact ⟨(h []).1 rfl, (h [sig1]).2.1 rfl,
    (h (List.replicate 9 sig1)).2.2 (by decide)⟩

/-- Claim C5 counterexample: the empty batch is rejected with
`TooManySignatures`, not `TooFewSignatures` — the `len < 2` cases are not
uniformly reported as `TooFewSignatures`. -/
theorem empty_batch_reports_too_many :
    validate_three_layer_signatures allVerifier [] (List.replicate 32 1)
      regVia regChain none = .error .TooManySignatures ∧
    validate_three_layer_signatures allVerifier [] (List.replicate 32 1)
      regVia regChain none ≠ .error .TooFewSignatures := by decide

/-- Claim C6: for every envelope within the size bounds, the canonical
digest is the one-way hash (keccak256, injected) of exactly the wire
format of §6: tx_id as 16 little-endian bytes, source_chain_id and
dest_chain_id as 8 little-endian bytes each, then the four
variable-length fields each as a 4-byte little-endian length followed by
the raw bytes; the byte string assembled by the source equals the spec's
wire format and the digest is a pure function of the envelope
(determinism). -/
theorem canonical_hash_wire_format
    (keccak : Keccak) (tx_id source_chain_id dest_chain_id : Nat)
    (sender recipient on_chain_data off_chain_data : Bytes)
    (hs : sender.length ≤ 64) (hr : recipient.length ≤ 64)
    (ho : on_chain_data.length ≤ 1024) (hf : off_chain_data.length ≤ 1024) :
    create_cross_chain_hash keccak tx_id source_chain_id dest_chain_id
      sender recipient on_chain_data off_chain_data
      = .ok (keccak (specWireFormat tx_id source_chain_id dest_chain_id
        sender recipient on_chain_data off_chain_data)) ∧
    encodedMessage tx_id source_chain_id dest_chain_id sender recipient
      on_chain_data off_chain_data
      = specWireFormat tx_id source_chain_id dest_chain_id sender recipient
        on_chain_data off_chain_data := by
  have henc : encodedMessage tx_id source_chain_id dest_chain_id sender
      recipient on_chain_data off_chain_data
      = specWireFormat tx_id source_chain_id dest_chain_id sender recipient
        on_chain_data off_chain_data := by
    simp [encodedMessage, encode_length_prefixed, specWireFormat,
      List.append_assoc]
  refine ⟨?_, henc⟩
  simp [create_cross_chain_hash, hs, hr, ho, hf, henc]

theorem canonical_hash_wire_format_witness :
    create_cross_chain_hash oneKeccak 1 2 5 [7] [8] [9] [10]
      = .ok (oneKeccak (specWireFormat 1 2 5 [7] [8] [9] [10])) ∧
    encodedMessage 1 2 5 [7] [8] [9] [10]
      = specWireFormat 1 2 5 [7] [8] [9] [10] :=
  canonical_hash_wire_format oneKeccak 1 2 5 [7] [8] [9] [10]
    (by decide) (by decide) (by decide) (by decide)

/-! ## Claim theorems: registry operations -/

/-- Claim C7: every registry-mutating operation either fails (persisting
nothing — a returned error rolls the transaction back) or returns a
registry satisfying `1 ≤ required_signatures ≤ |signers|`; for
`add_signer` and `remove_signer` this relies on the registry already
satisfying the invariant, which every registry the program creates
does. -/
theorem registry_ops_preserve_invariant
    (r : SignerRegistry) (hr : threshold_invariant r) :
    (∀ rt a cid ss req r',
      initialize_signer_registry rt a cid ss req = .ok r' →
      threshold_invariant r') ∧
    (∀ ss req r', update_signers r ss req = .ok r' →
      threshold_invariant r') ∧
    (∀ s r', add_signer r s = .ok r' → threshold_invariant r') ∧
    (∀ s r', remove_signer r s = .ok r' → threshold_invariant r') ∧
    (∀ n r', update_threshold r n = .ok r' → threshold_invariant r') := by
  obtain ⟨hr1, hr2⟩ := hr
  refine ⟨?_, ?_, ?_, ?_, ?_⟩
  · intro rt a cid ss req r' h
    unfold initialize_signer_registry at h
    repeat' split at h
    all_goals cases h
    all_goals simp_all [threshold_invariant]
    all_goals omega
  · intro ss req r' h
    unfold update_signers at h
    repeat' split at h
    all_goals cases h
    all_goals simp_all [threshold_invariant]
    all_goals omega
  · intro s r' h
    unfold add_signer at h
    repeat' split at h
    all_goals cases h
    all_goals simp_all [threshold_invariant]
    all_goals omega
  · intro s r' h
    unfold remove_signer at h
    repeat' split at h
    all_goals cases h
    all_goals simp_all [threshold_invariant]
    all_goals omega
  · intro n r' h
    unfold update_threshold at h
    repeat' split at h
    all_goals cases h
    all_goals simp_all [threshold_invariant]
    all_goals omega

theorem registry_ops_invariant_witness :
    threshold_invariant ⟨.Chain, 0, [2, 9], 1, 2, true, 0⟩ :=
  (registry_ops_preserve_invariant regChain (by decide)).2.2.1 9
    ⟨.Chain, 0, [2, 9], 1, 2, true, 0⟩ rfl

/-- Claim C8: `remove_signer` fails with the signer-not-found error (the
code reports it as `GatewayError::UnauthorizedSigner`) when the id is
absent, and with the threshold-unsatisfiable error (the code's
`GatewayError::ThresholdTooHigh`) when removal would leave fewer signers
than `required_signatures`; in both cases the operation returns an error
and no mutated signer list is persisted.  (Stated for registries within
the 10-signer capacity the program enforces.) -/
theorem remove_signer_error_cases (r : SignerRegistry) (s : Pubkey)
    (hlen : r.signers.length ≤ MAX_SIGNERS_PER_REGISTRY) :
    (r.signers.contains s = false →
      remove_signer r s = .error .UnauthorizedSigner) ∧
    (r.signers.contains s = true →
      r.required_signatures > (r.signers.erase s).length →
      remove_signer r s = .error .ThresholdTooHigh) := by
  constructor
  · intro h
    unfold remove_signer
    rw [h]
    simp
  · intro h hgt
    have hmod : (r.signers.erase s).length % 256
        = (r.signers.erase s).length := by
      have hle : (r.signers.erase s).length ≤ r.signers.length :=
        List.length_erase_le _ _
      apply Nat.mod_eq_of_lt
      simp [MAX_SIGNERS_PER_REGISTRY] at hlen
      omega
    have hcond : ¬(r.required_signatures ≤ (r.signers.erase s).length)
        := by omega
    unfold remove_signer
    rw [h, hmod]
    simp [hcond]

theorem remove_signer_error_witness :
    remove_signer regChain 5 = .error .UnauthorizedSigner ∧
    remove_signer regChain 2 = .error .ThresholdTooHigh :=
  ⟨(remove_signer_error_cases regChain 5 (by decide)).1 (by decide),
   (remove_signer_error_cases regChain 2 (by decide)).2 (by decide)
     (by decide)⟩

/-! ## Claim theorems: gateway switch and validation totals -/

/-- Claim C9 (amended): with the gateway's `system_enabled` flag false,
consume fails with `SystemDisabled` before any other handler check
whenever the claimed record exists (when the record is absent, Anchor's
account resolution fails first with the account-not-initialized error,
the spec's `NoSuchClaim`); and the outcome of claim is identical whether
the flag is true or false — claim never reads the gateway account. -/
theorem disabled_gateway_blocks_consume_not_claim
    (v : Verifier) (kk : Keccak) (st : GatewayState)
    (via_registry chain_registry : SignerRegistry)
    (project_registry : Option SignerRegistry)
    (tx_id source_chain_id dest_chain_id : Nat)
    (sender recipient on_chain_data off_chain_data : Bytes)
    (signatures : List MessageSignature) :
    ((st.record (source_chain_id, tx_id)).isSome →
      st.gateway.system_enabled = false →
      process_message v kk st via_registry chain_registry project_registry
        tx_id source_chain_id dest_chain_id sender recipient on_chain_data
        off_chain_data signatures = .error (.gateway .SystemDisabled)) ∧
    (∀ b, create_tx_pda v kk (set_system_enabled st b) tx_id
        source_chain_id dest_chain_id sender recipient on_chain_data
        off_chain_data signatures
      = (create_tx_pda v kk st tx_id source_chain_id dest_chain_id sender
          recipient on_chain_data off_chain_data signatures).map
          (fun s' => set_system_enabled s' b)) := by
  constructor
  · intro hrec hflag
    obtain ⟨pda, hp⟩ := Option.isSome_iff_exists.mp hrec
    simp [process_message, hp, hflag]
  · intro b
    unfold create_tx_pda
    have h1 : (set_system_enabled st b).record (source_chain_id, tx_id)
        = st.record (source_chain_id, tx_id) := rfl
    have h2 : claimCounter (set_system_enabled st b) tx_id source_chain_id
        = claimCounter st tx_id source_chain_id := rfl
    have h3 : (set_system_enabled st b).records = st.records := rfl
    rw [h1, h2, h3]
    split
    · rfl
    all_goals split
    all_goals try rfl
    all_goals split
    all_goals try rfl
    all_goals split
    all_goals try rfl
    all_goals split
    all_goals try rfl
    all_goals split
    all_goals try rfl
    all_goals split
    all_goals try rfl

theorem disabled_gateway_witness :
    process_message allVerifier oneKeccak stDisabledRec regVia regChain
      none 1 2 5 [] [] [] [] [sig1, sig2]
      = .error (.gateway .SystemDisabled) ∧
    create_tx_pda allVerifier oneKeccak (set_system_enabled st0 false)
      1 2 5 [] [] [] [] [sig1, sig2]
      = (create_tx_pda allVerifier oneKeccak st0 1 2 5 [] [] [] []
          [sig1, sig2]).map (fun s' => set_system_enabled s' false) :=
  ⟨(disabled_gateway_blocks_consume_not_claim allVerifier oneKeccak
      stDisabledRec regVia regChain none 1 2 5 [] [] [] []
      [sig1, sig2]).1 (by decide) (by decide),
   (disabled_gateway_blocks_consume_not_claim allVerifier oneKeccak
      st0 regVia regChain none 1 2 5 [] [] [] [] [sig1, sig2]).2 false⟩

/-- Claim C9 counterexample: with the gateway disabled and no claimed
record, consume fails with the account-not-initialized error from
account resolution, not with `SystemDisabled` — so `SystemDisabled` is
not raised before every other check. -/
theorem consume_on_absent_record_not_system_disabled :
    process_message allVerifier oneKeccak stDisabled regVia regChain none
      1 2 5 [] [] [] [] [sig1, sig2] = .error .accountNotInitialized ∧
    process_message allVerifier oneKeccak stDisabled regVia regChain none
      1 2 5 [] [] [] [] [sig1, sig2]
      ≠ .error (.gateway .SystemDisabled) := by decide

theorem increment_for_signer_total (acc : ValidationResult)
    (iv ic ip : Bool) :
    (acc.increment_for_signer iv ic ip).total_valid =
      if iv || ic || ip then (acc.total_valid + 1) % 256
      else acc.total_valid := by
  cases iv <;> cases ic <;> cases ip <;>
    simp [ValidationResult.increment_for_signer]

theorem validateLoop_total (v : Verifier) (h : Bytes)
    (via_r chain_r : SignerRegistry) (proj_r : Option SignerRegistry) :
    ∀ (sigs : List MessageSignature) (used : List Pubkey)
      (acc res : ValidationResult), acc.total_valid < 256 →
      validateLoop v h via_r chain_r proj_r sigs used acc = .ok res →
      res.total_valid = (acc.total_valid + sigs.length) % 256 := by
  intro sigs
  induction sigs with
  | nil =>
    intro used acc res hlt hok
    have hok' : (Except.ok acc : Except GatewayError ValidationResult)
        = .ok res := hok
    cases hok'
    simp
    omega
  | cons s rest ih =>
    intro used acc res hlt hok
    unfold validateLoop at hok
    split at hok
    · cases hok
    · split at hok
      · cases hok
      · split at hok
        · cases hok
        · split at hok
          · cases hok
          · rename_i hg
            have hcond : (via_r.is_signer s.signer ||
                chain_r.is_signer s.signer ||
                is_project_signer_opt proj_r s.signer) = true := by
              revert hg
              cases via_r.is_signer s.signer <;>
                cases chain_r.is_signer s.signer <;>
                cases is_project_signer_opt proj_r s.signer <;> simp
            have htot : (acc.increment_for_signer
                (via_r.is_signer s.signer) (chain_r.is_signer s.signer)
                (is_project_signer_opt proj_r s.signer)).total_valid
                = (acc.total_valid + 1) % 256 := by
              rw [increment_for_signer_total, if_pos hcond]
            have hlt' : (acc.increment_for_signer
                (via_r.is_signer s.signer) (chain_r.is_signer s.signer)
                (is_project_signer_opt proj_r s.signer)).total_valid
                < 256 := by
              rw [htot]
              omega
            have hres := ih _ _ _ hlt' hok
            rw [hres, htot]
            simp [List.length_cons]
            omega

theorem three_layer_ok_elim {v : Verifier} {sigs : List MessageSignature}
    {hash : Bytes} {via_r chain_r : SignerRegistry}
    {proj_r : Option SignerRegistry} {res : ValidationResult}
    (h : validate_three_layer_signatures v sigs hash via_r chain_r proj_r
      = .ok res) :
    sigs.length ≤ MAX_SIGNATURES_PER_MESSAGE ∧
    validateLoop v hash via_r chain_r proj_r sigs [] ValidationResult.new
      = .ok res := by
  unfold validate_three_layer_signatures at h
  repeat' split at h
  all_goals try cases h
  all_goals simp_all

/-- Claim C10: whenever the full three-layer engine succeeds, the
returned result's `total_valid` equals the number of submitted
signatures — every signature is counted exactly once in the total, since
a signature matching no supplied registry aborts the call — while the
per-tier counts may sum to more than `total_valid` when one signer
belongs to several tiers, as the concrete overlapping-registry run
shows. -/
theorem total_valid_counts_every_signature :
    (∀ (v : Verifier) (sigs : List MessageSignature) (h : Bytes)
      (via_r chain_r : SignerRegistry) (proj_r : Option SignerRegistry)
      (res : ValidationResult),
      validate_three_layer_signatures v sigs h via_r chain_r proj_r
        = .ok res →
      res.total_valid = sigs.length) ∧
    (validate_three_layer_signatures allVerifier [sig1, sig2]
      (List.replicate 32 1) regVia regChainB none
      = .ok ⟨2, 2, 0, 2⟩ ∧ 2 + 2 + 0 > 2) := by
  refine ⟨?_, by decide, by decide⟩
  intro v sigs h via_r chain_r proj_r res hok
  obtain ⟨hlen, hloop⟩ := three_layer_ok_elim hok
  have htot := validateLoop_total v h via_r chain_r proj_r sigs []
    ValidationResult.new res (by simp [ValidationResult.new]) hloop
  simp [ValidationResult.new] at htot
  simp [MAX_SIGNATURES_PER_MESSAGE] at hlen
  omega

theorem total_valid_counts_witness :
    (⟨2, 1, 0, 2⟩ : ValidationResult).total_valid = [sig1, sig2].length :=
  total_valid_counts_every_signature.1 allVerifier [sig1, sig2]
    (List.replicate 32 1) regVia regChain none ⟨2, 1, 0, 2⟩ (by decide)

end Gateway
